import Mathlib

/-!
Verification development for the gtfs-gridforge transit-feed generator
(src/lib.rs).  Rust strings are modelled as lists of characters, the
chrono NaiveTime clock as seconds-of-day (a natural number, with all
additions wrapping modulo 86400 exactly as chrono does), 32-bit
frequencies as integers, and the f64 coordinate/travel-time arithmetic
as exact rational arithmetic (the single transcendental quantity,
cos(base_lat in radians), is carried as an explicit rational parameter
of the configuration).  Ceiling-of-square-root expressions are realised
by rational comparisons so that every definition stays executable.
-/

/-- Rust String / &str, modelled as its sequence of characters. -/
abbrev Str := List Char

/-- Seconds-of-day representation of chrono::NaiveTime (0 ≤ t < 86400). -/
abbrev TimeOfDay := Nat

/-- chrono NaiveTime + Duration::minutes(m): the clock wraps modulo 24 h
(86400 s); m may be negative (i64 in the source). -/
def addMinutes (t : TimeOfDay) (m : Int) : TimeOfDay :=
  (((t : Int) + m * 60) % 86400).toNat

/-- NaiveTime::from_hms_opt(23,59,0), the service-end cutoff of the
trip-generation loop, in seconds of day. -/
def serviceEndCutoff : TimeOfDay := 23 * 3600 + 59 * 60

/-- GridPosition (src/lib.rs): row is expected uppercase A-Z, column
lowercase a-z. -/
structure GridPosition where
  row : Char
  column : Char
deriving DecidableEq, Repr

/-- GridPosition::new: takes the first two characters of the input via
the character iterator (returning none when fewer than two exist) and
accepts when the first lies in A-Z and the second in a-z.  The source's
additional is_uppercase()/is_lowercase() Unicode checks are subsumed by
the A-Z / a-z range comparisons and are therefore not repeated. -/
def GridPosition.new : Str → Option GridPosition
  | c0 :: c1 :: _ =>
    if 'A' ≤ c0 ∧ c0 ≤ 'Z' ∧ 'a' ≤ c1 ∧ c1 ≤ 'z' then
      some ⟨c0, c1⟩
    else
      none
  | _ => none

/-- GridPosition::to_string: the two-character canonical form. -/
def GridPosition.render (p : GridPosition) : Str := [p.row, p.column]

/-- GridConfig (src/lib.rs) with the f64 fields as exact rationals.
cosBaseLat models the value base_lat.to_radians().cos() computed by
to_coordinates; it is carried as data because cosine is transcendental. -/
structure GridConfig where
  spacing_km : ℚ
  base_lat : ℚ
  base_lon : ℚ
  cosBaseLat : ℚ
deriving DecidableEq, Repr

/-- GridPosition::to_coordinates, in exact rational arithmetic:
row/column indices scaled by the spacing, converted to degree offsets
with 1/111.32 degrees per km (longitude corrected by cos(base_lat)). -/
def GridPosition.toCoordinates (p : GridPosition) (cfg : GridConfig) : ℚ × ℚ :=
  let row_idx : ℚ := (p.row.toNat - 65 : Nat)
  let col_idx : ℚ := (p.column.toNat - 97 : Nat)
  let x_km := col_idx * cfg.spacing_km
  let y_km := row_idx * cfg.spacing_km
  let lat_per_km : ℚ := 1 / (2783 / 25)
  let lon_per_km : ℚ := 1 / ((2783 / 25) * cfg.cosBaseLat)
  (cfg.base_lat + y_km * lat_per_km, cfg.base_lon + x_km * lon_per_km)

/-- GridStop (src/lib.rs). -/
structure GridStop where
  id : Str
  name : Str
  position : GridPosition
deriving DecidableEq, Repr

/-- GridRoute (src/lib.rs): frequency is an i32, schedule a list of
first departures (always a singleton for routes made by add_route). -/
structure GridRoute where
  id : Str
  name : Str
  stops : List Str
  schedule : List TimeOfDay
  frequency : Int
deriving DecidableEq, Repr

/-- TransitGrid (src/lib.rs); the stop HashMap is modelled as an
association list with insert-replaces-existing-key semantics. -/
structure TransitGrid where
  stops : List (Str × GridStop)
  routes : List GridRoute
  config : GridConfig
deriving DecidableEq, Repr

/-- HashMap::get / contains_key on the stop registry. -/
def lookupStop : List (Str × GridStop) → Str → Option GridStop
  | [], _ => none
  | (k, v) :: rest, key => if k = key then some v else lookupStop rest key

/-- HashMap::insert on the stop registry: replaces the entry of an
existing key, otherwise appends. -/
def insertStop : List (Str × GridStop) → Str → GridStop → List (Str × GridStop)
  | [], k, v => [(k, v)]
  | (k', v') :: rest, k, v =>
    if k' = k then (k, v) :: rest else (k', v') :: insertStop rest k v

/-- TransitGrid::add_stop: parse the grid text, then store/overwrite the
stop keyed by the canonical two-character id.  The mutated grid is
returned together with the optional error message. -/
def addStop (g : TransitGrid) (position : Str) (name : Str) :
    TransitGrid × Option Str :=
  match GridPosition.new position with
  | none => (g, some (String.toList "Invalid grid position: " ++ position))
  | some p =>
    let stop_id := p.render
    ({ g with stops := insertStop g.stops stop_id ⟨stop_id, name, p⟩ }, none)

/-- The reverse-direction marker suffix appended by add_route. -/
def revSuffix : Str := String.toList "_reverse"

/-- TransitGrid::add_route: validates that every stop id exists before
any mutation (returning the first "Stop … not found" error otherwise),
then appends the forward route and, when generate_reverse is set, a
second route with reversed stops, departure offset frequency/2 minutes
(i32 truncating division), and the id suffixed with "_reverse". -/
def addRoute (g : TransitGrid) (id name : Str) (stops : List Str)
    (first_departure : TimeOfDay) (frequency : Int) (generate_reverse : Bool) :
    TransitGrid × Option Str :=
  match stops.find? (fun s => (lookupStop g.stops s).isNone) with
  | some s => (g, some (String.toList "Stop " ++ s ++ String.toList " not found"))
  | none =>
    let forward : GridRoute := ⟨id, name, stops, [first_departure], frequency⟩
    let g1 := { g with routes := g.routes ++ [forward] }
    if generate_reverse then
      let reverse_departure := addMinutes first_departure (frequency.tdiv 2)
      let reverse : GridRoute :=
        ⟨id ++ revSuffix, name, stops.reverse, [reverse_departure], frequency⟩
      ({ g1 with routes := g1.routes ++ [reverse] }, none)
    else
      (g1, none)

/-- Auxiliary fuel-driven decimal digit extraction (least significant
digit first), used to model Rust's decimal Display formatting of
unsigned integers. -/
def decAux : Nat → Nat → List Char
  | 0, _ => []
  | fuel + 1, n =>
    if n = 0 then [] else Nat.digitChar (n % 10) :: decAux fuel (n / 10)

/-- Decimal rendering of a natural number, as produced by format!. -/
def dec (n : Nat) : Str :=
  if n = 0 then ['0'] else (decAux n n).reverse

/-- Trip identifier: the parent id, the trip index and "dir" plus the
direction digit, joined by underscores. -/
def mkTripId (parent : Str) (index : Nat) (direction : Nat) : Str :=
  parent ++ ['_'] ++ dec index ++ ['_', 'd', 'i', 'r'] ++ dec direction

/-- route.id.ends_with("_reverse"), deciding the GTFS direction_id. -/
def dirId (id : Str) : Nat := if revSuffix.isSuffixOf id then 1 else 0

/-- The parent route id: the id with one trailing "_reverse" stripped
(strip_suffix), the id itself otherwise. -/
def parentRouteId (id : Str) : Str :=
  if revSuffix.isSuffixOf id then id.take (id.length - 8) else id

/-- Travel minutes from the squared straight-line degree distance s:
the source computes ceil(min(sqrt(s)*111.32, 10.0)/30.0*60.0), i.e.
the least n with n ≥ 2*min(sqrt(s)*111.32, 10).  Since that value never
exceeds 20, it equals the first n ≤ 20 with 4*(111.32^2)*s ≤ n^2, and
20 when the 10 km cap is in force.  Exact-real model of the f64
arithmetic. -/
def travelMinutes (s : ℚ) : Nat :=
  ((List.range 21).find? fun (n : Nat) =>
    decide (4 * (s * ((2783 / 25) * (2783 / 25))) ≤ (n : ℚ) * (n : ℚ))).getD 20

/-- Stop-to-stop travel minutes inside generate_gtfs: coordinates of the
two stops via to_coordinates, then the capped distance/speed formula.
The source indexes the stop map directly (aborting on a missing id,
which cannot happen for routes admitted by add_route); a missing stop is
modelled as a zero-minute hop. -/
def travelBetween (g : TransitGrid) (s1 s2 : Str) : Nat :=
  match lookupStop g.stops s1, lookupStop g.stops s2 with
  | some a, some b =>
    let (lat1, lon1) := a.position.toCoordinates g.config
    let (lat2, lon2) := b.position.toCoordinates g.config
    travelMinutes ((lat2 - lat1) * (lat2 - lat1) + (lon2 - lon1) * (lon2 - lon1))
  | _, _ => 0

/-- One line of trips.txt, structured: route_id (parent), trip_id,
direction_id (the service_id column is the constant "WEEKDAY"). -/
structure TripLine where
  routeId : Str
  tripId : Str
  direction : Nat
deriving DecidableEq, Repr

/-- One line of stop_times.txt, structured: trip_id, the visit time
(arrival = departure in the source), stop_id, stop_sequence. -/
structure StopTimeLine where
  tripId : Str
  time : TimeOfDay
  stopId : Str
  seq : Nat
deriving DecidableEq, Repr

/-- The per-trip walk over the route's stop sequence: each stop emits a
visit at the running clock, and when a next stop exists the clock
advances by the travel duration to it. -/
def stopVisits (g : TransitGrid) (tid : Str) :
    List Str → TimeOfDay → Nat → List StopTimeLine
  | [], _, _ => []
  | [s], t, i => [⟨tid, t, s, i⟩]
  | s :: s' :: rest, t, i =>
    ⟨tid, t, s, i⟩ ::
      stopVisits g tid (s' :: rest) (addMinutes t (travelBetween g s s')) (i + 1)

/-- The while-loop of generate_gtfs for one route and one schedule
entry: runs while departure_time < 23:59:00 and trip_index < 300.  The
fuel argument carries 300 - trip_index, so calling with fuel 300 and
index 0 is exactly the source loop with its max_trips = 300 bound. -/
def tripLoop (g : TransitGrid) (r : GridRoute) :
    Nat → TimeOfDay → Nat → List TripLine × List StopTimeLine
  | 0, _, _ => ([], [])
  | fuel + 1, departure_time, trip_index =>
    if departure_time < serviceEndCutoff then
      let direction := dirId r.id
      let parent := parentRouteId r.id
      let tid := mkTripId parent trip_index direction
      let visits := stopVisits g tid r.stops departure_time 0
      let rest := tripLoop g r fuel (addMinutes departure_time r.frequency) (trip_index + 1)
      (⟨parent, tid, direction⟩ :: rest.1, visits ++ rest.2)
    else
      ([], [])

/-- All trips.txt data lines: every route, every schedule entry, the
bounded frequency loop. -/
def gtfsTrips (g : TransitGrid) : List TripLine :=
  g.routes.flatMap fun r => r.schedule.flatMap fun t => (tripLoop g r 300 t 0).1

/-- All stop_times.txt data lines, in emission order. -/
def gtfsStopTimes (g : TransitGrid) : List StopTimeLine :=
  g.routes.flatMap fun r => r.schedule.flatMap fun t => (tripLoop g r 300 t 0).2

/-- format!("{:02}", n) for the clock fields. -/
def pad2 (n : Nat) : Str := if n < 10 then '0' :: dec n else dec n

/-- The HH:MM:SS rendering of a stop-visit time. -/
def renderTime (t : TimeOfDay) : Str :=
  pad2 (t / 3600) ++ [':'] ++ pad2 (t % 3600 / 60) ++ [':'] ++ pad2 (t % 60)

/-- Rust str::contains(needle): some contiguous run of hay equals
needle, i.e. needle is a prefix of some tail of hay. -/
def containsSeq (hay needle : Str) : Bool :=
  hay.tails.any fun t => needle.isPrefixOf t

/-- The header line of routes.txt. -/
def routesHeader : Str :=
  String.toList "route_id,route_short_name,route_long_name,route_type"

/-- One data line of routes.txt: parent id, name, empty long name and
the fixed route type 3, comma separated. -/
def routeLine (parent name : Str) : Str :=
  parent ++ [','] ++ name ++ [','] ++ [','] ++ ['3']

/-- The routes.txt generation loop, instrumented: it returns the pushed
(parent id, line) pairs while threading the accumulated table (the acc
the source's any-check scans, header included) exactly as the source
does.  A line is pushed only when no already-accumulated line contains
the parent id followed by a comma. -/
def routesScan : List GridRoute → List Str → List (Str × Str)
  | [], _ => []
  | r :: rest, acc =>
    let parent := parentRouteId r.id
    if acc.any fun l => containsSeq l (parent ++ [',']) then
      routesScan rest acc
    else
      (parent, routeLine parent r.name) ::
        routesScan rest (acc ++ [routeLine parent r.name])

/-- routes.txt: the header followed by the pushed data lines. -/
def routesTable (g : TransitGrid) : List Str :=
  routesHeader :: (routesScan g.routes [routesHeader]).map (·.2)

/-- Rational stand-in for cos(40° in radians) ≈ 0.766 used by the
concrete scenarios below; they all move along a single grid column, so
the longitude correction this value feeds never affects a result. -/
def cos40 : ℚ := 383 / 500

/-- The process-wide default configuration: spacing 1 km, base
(40, -74). -/
def defaultConfig : GridConfig := ⟨1, 40, -74, cos40⟩

/-- A freshly constructed TransitGrid with the default configuration. -/
def emptyGrid : TransitGrid := ⟨[], [], defaultConfig⟩

/-- Network with a single route R, no stops, first departure 05:30:00
(the repository's own Green-line departure), frequency 5 minutes. -/
def gridC1 : TransitGrid :=
  (addRoute emptyGrid (String.toList "R") (String.toList "Line R")
    [] 19800 5 false).1

/-- Network with the two stops Aa and Ba, one grid cell apart along the
row direction. -/
def gridAaBa : TransitGrid :=
  (addStop (addStop emptyGrid (String.toList "Aa") (String.toList "Stop A")).1
    (String.toList "Ba") (String.toList "Stop B")).1

/-- gridAaBa plus a route Aa→Ba departing 23:58:00 with frequency 1. -/
def gridC2 : TransitGrid :=
  (addRoute gridAaBa (String.toList "R") (String.toList "Line R")
    [String.toList "Aa", String.toList "Ba"] 86280 1 false).1

/-- Network with the two routes AB then B (empty stop lists), whose ids
collide under the substring-based routes.txt deduplication. -/
def gridC3 : TransitGrid :=
  (addRoute (addRoute emptyGrid (String.toList "AB") (String.toList "n1")
      [] 19800 5 false).1
    (String.toList "B") (String.toList "n2") [] 19800 5 false).1

/-- Result of registering a route whose caller-supplied id already ends
in the reverse marker, with generate_reverse = true. -/
def gridC5X : TransitGrid × Option Str :=
  addRoute emptyGrid (String.toList "X_reverse") (String.toList "X")
    [] 86280 1 true

/-- Result of registering a route with the negative frequency -3 and
generate_reverse = true. -/
def gridC5Y : TransitGrid × Option Str :=
  addRoute emptyGrid (String.toList "Y") (String.toList "Y")
    [] 28800 (-3) true

/-- Two successful registrations reusing the same route id R. -/
def gridC8dup : TransitGrid × Option Str :=
  addRoute (addRoute emptyGrid (String.toList "R") (String.toList "n")
      [] 86280 1 false).1
    (String.toList "R") (String.toList "n") [] 86280 1 false

/-- One registration of route R with generate_reverse = true, giving the
forward/reverse pair with distinct (parent id, direction) keys. -/
def gridC8ok : TransitGrid :=
  (addRoute emptyGrid (String.toList "R") (String.toList "n")
    [] 86280 1 true).1

/-- The value of a little-endian digit-character list, inverse of the
digit extraction. -/
def valChars : List Char → Nat
  | [] => 0
  | c :: rest => (c.toNat - 48) + 10 * valChars rest

lemma decAux_zero (fuel : Nat) : decAux fuel 0 = [] := by
  cases fuel <;> simp [decAux]

lemma digitChar_lt_ten_ne_us : ∀ d, d < 10 → Nat.digitChar d ≠ '_' := by decide

lemma digitChar_lt_ten_val : ∀ d, d < 10 → (Nat.digitChar d).toNat - 48 = d := by
  decide

lemma decAux_no_us : ∀ fuel n, '_' ∉ decAux fuel n := by
  intro fuel
  induction fuel with
  | zero => intro n; simp [decAux]
  | succ f ih =>
    intro n
    simp only [decAux]
    split
    · simp
    · intro hmem
      rcases List.mem_cons.mp hmem with h | h
      · exact digitChar_lt_ten_ne_us (n % 10) (Nat.mod_lt _ (by norm_num)) h.symm
      · exact ih (n / 10) h

lemma dec_no_us (n : Nat) : '_' ∉ dec n := by
  unfold dec
  split
  · simp
  · rw [List.mem_reverse]
    exact decAux_no_us n n

lemma decAux_val : ∀ fuel n, n ≤ fuel → valChars (decAux fuel n) = n := by
  intro fuel
  induction fuel with
  | zero => intro n hn; interval_cases n; simp [decAux, valChars]
  | succ f ih =>
    intro n hn
    by_cases h0 : n = 0
    · subst h0; simp [decAux, valChars]
    · simp only [decAux, if_neg h0, valChars]
      rw [ih (n / 10) ?_, digitChar_lt_ten_val (n % 10) (Nat.mod_lt _ (by norm_num))]
      · exact Nat.mod_add_div n 10
      · have : n / 10 < n := Nat.div_lt_self (Nat.pos_of_ne_zero h0) (by norm_num)
        omega

lemma dec_inj {n m : Nat} (h : dec n = dec m) : n = m := by
  by_cases hn : n = 0 <;> by_cases hm : m = 0
  · omega
  · exfalso
    subst hn
    unfold dec at h
    rw [if_pos rfl, if_neg hm] at h
    have hv := decAux_val m m le_rfl
    rw [← List.reverse_reverse (decAux m m), ← h] at hv
    simp [valChars] at hv
    omega
  · exfalso
    subst hm
    unfold dec at h
    rw [if_pos rfl, if_neg hn] at h
    have hv := decAux_val n n le_rfl
    rw [← List.reverse_reverse (decAux n n), h] at hv
    simp [valChars] at hv
    omega
  · unfold dec at h
    rw [if_neg hn, if_neg hm, List.reverse_inj] at h
    have hv1 := decAux_val n n le_rfl
    have hv2 := decAux_val m m le_rfl
    rw [h, hv2] at hv1
    exact hv1.symm

lemma dec_singleton {d : Nat} (hd : d < 10) : dec d = [Nat.digitChar d] := by
  by_cases h0 : d = 0
  · subst h0; rfl
  · unfold dec decAux
    rw [if_neg h0]
    have h1 : d % 10 = d := Nat.mod_eq_of_lt hd
    have h2 : d / 10 = 0 := Nat.div_eq_of_lt hd
    cases d with
    | zero => omega
    | succ k =>
      simp only [if_neg h0, h1, h2, decAux_zero]
      rfl

lemma append_sep_inj :
    ∀ (a1 : Str) {b1 : Str} (a2 : Str) {b2 : Str},
      a1 ++ '_' :: b1 = a2 ++ '_' :: b2 → '_' ∉ a1 → '_' ∉ a2 →
      a1 = a2 ∧ b1 = b2 := by
  intro a1
  induction a1 with
  | nil =>
    intro b1 a2 b2 h h1 h2
    cases a2 with
    | nil => simpa using h
    | cons c a2' =>
      exfalso
      simp only [List.nil_append, List.cons_append, List.cons.injEq] at h
      exact h2 (h.1 ▸ List.mem_cons_self c a2')
  | cons c a1' ih =>
    intro b1 a2 b2 h h1 h2
    cases a2 with
    | nil =>
      exfalso
      simp only [List.cons_append, List.nil_append, List.cons.injEq] at h
      exact h1 (h.1 ▸ List.mem_cons_self c a1')
    | cons c2 a2' =>
      simp only [List.cons_append, List.cons.injEq] at h
      obtain ⟨rfl, htail⟩ := h
      have h1' : '_' ∉ a1' := fun hm => h1 (List.mem_cons_of_mem _ hm)
      have h2' : '_' ∉ a2' := fun hm => h2 (List.mem_cons_of_mem _ hm)
      obtain ⟨he, hb⟩ := ih a2' htail h1' h2'
      exact ⟨by rw [he], hb⟩

lemma mkTripId_inj {p1 p2 : Str} {k1 k2 d1 d2 : Nat}
    (hd1 : d1 < 10) (hd2 : d2 < 10)
    (h : mkTripId p1 k1 d1 = mkTripId p2 k2 d2) :
    p1 = p2 ∧ k1 = k2 ∧ d1 = d2 := by
  unfold mkTripId at h
  have hr := congrArg List.reverse h
  rw [dec_singleton hd1, dec_singleton hd2] at hr
  simp only [List.reverse_append, List.reverse_cons, List.reverse_nil,
    List.nil_append, List.append_assoc, List.cons_append,
    List.singleton_append, List.cons.injEq] at hr
  obtain ⟨hd, _, _, _, _, hrest⟩ := hr
  have hdeq : d1 = d2 := by
    have h1 := digitChar_lt_ten_val d1 hd1
    have h2 := digitChar_lt_ten_val d2 hd2
    rw [hd] at h1
    omega
  have hk1 : '_' ∉ (dec k1).reverse := by
    rw [List.mem_reverse]; exact dec_no_us k1
  have hk2 : '_' ∉ (dec k2).reverse := by
    rw [List.mem_reverse]; exact dec_no_us k2
  obtain ⟨ha, hb⟩ := append_sep_inj _ _ hrest hk1 hk2
  rw [List.reverse_inj] at ha hb
  exact ⟨hb, dec_inj ha, hdeq⟩

lemma dirId_lt_two (id : Str) : dirId id < 2 := by
  unfold dirId
  split <;> norm_num

lemma revSuffix_isSuffixOf_append (id : Str) :
    revSuffix.isSuffixOf (id ++ revSuffix) = true := by
  rw [ List.isSuffixOf_iff_suffix]
  exact List.suffix_append id revSuffix

lemma dirId_append_rev (id : Str) : dirId (id ++ revSuffix) = 1 := by
  unfold dirId
  rw [revSuffix_isSuffixOf_append]
  simp

lemma dirId_of_not_rev {id : Str} (h : revSuffix.isSuffixOf id = false) :
    dirId id = 0 := by
  unfold dirId
  rw [h]
  simp

lemma parentRouteId_append_rev (id : Str) :
    parentRouteId (id ++ revSuffix) = id := by
  unfold parentRouteId
  rw [revSuffix_isSuffixOf_append]
  simp only [List.length_append]
  have h8 : revSuffix.length = 8 := by rfl
  rw [h8, Nat.add_sub_cancel]
  exact List.take_left id revSuffix

lemma parentRouteId_of_not_rev {id : Str} (h : revSuffix.isSuffixOf id = false) :
    parentRouteId id = id := by
  unfold parentRouteId
  rw [h]
  simp

/-- Every trip record emitted by the loop carries the route's parent id
and direction, and a trip index at least the loop's starting index. -/
lemma tripLoop_mem {g : TransitGrid} {r : GridRoute} :
    ∀ fuel dep k tr, tr ∈ (tripLoop g r fuel dep k).1 →
      ∃ i, k ≤ i ∧
        tr = ⟨parentRouteId r.id, mkTripId (parentRouteId r.id) i (dirId r.id),
              dirId r.id⟩ := by
  intro fuel
  induction fuel with
  | zero => intro dep k tr htr; simp [tripLoop] at htr
  | succ f ih =>
    intro dep k tr htr
    simp only [tripLoop] at htr
    split at htr
    · rcases List.mem_cons.mp htr with h | h
      · exact ⟨k, le_rfl, h⟩
      · obtain ⟨i, hki, he⟩ := ih _ _ tr h
        exact ⟨i, by omega, he⟩
    · simp at htr

/-- The trip identifiers emitted by one run of the loop are pairwise
distinct: the trip index increases strictly. -/
lemma tripLoop_nodup {g : TransitGrid} {r : GridRoute} :
    ∀ fuel dep k, (((tripLoop g r fuel dep k).1.map (·.tripId)).Nodup) := by
  intro fuel
  induction fuel with
  | zero => intro dep k; simp [tripLoop]
  | succ f ih =>
    intro dep k
    simp only [tripLoop]
    split
    · simp only [List.map_cons, List.nodup_cons]
      refine ⟨?_, ih _ _⟩
      intro hmem
      obtain ⟨tr, htr, hid⟩ := List.mem_map.mp hmem
      obtain ⟨i, hki, he⟩ := tripLoop_mem f _ _ tr htr
      subst he
      simp only at hid
      have hlt : dirId r.id < 10 :=
        lt_of_lt_of_le (dirId_lt_two r.id) (by norm_num)
      obtain ⟨-, hk, -⟩ := mkTripId_inj hlt hlt hid.symm
      omega
    · simp

/-- Every trip the loop emits for a route carries that route's derived
direction id. -/
lemma tripLoop_dir_filter (g : TransitGrid) (r : GridRoute)
    (fuel : Nat) (dep : TimeOfDay) (k : Nat) :
    (tripLoop g r fuel dep k).1.filter (fun tr => tr.direction != dirId r.id)
      = [] := by
  rw [List.filter_eq_nil_iff]
  intro tr htr
  obtain ⟨i, -, he⟩ := tripLoop_mem fuel dep k tr htr
  subst he
  simp

lemma self_mem_tails (l : Str) : l ∈ l.tails := by
  cases l <;> simp [List.tails]

lemma containsSeq_of_isPrefixOf {needle hay : Str}
    (h : needle.isPrefixOf hay = true) : containsSeq hay needle = true := by
  unfold containsSeq
  rw [List.any_eq_true]
  exact ⟨hay, self_mem_tails hay, h⟩

lemma routeLine_contains (p name : Str) :
    containsSeq (routeLine p name) (p ++ [',']) = true := by
  apply containsSeq_of_isPrefixOf
  rw [ List.isPrefixOf_iff_prefix]
  unfold routeLine
  exact ⟨name ++ [','] ++ [','] ++ ['3'], by simp⟩

/-- Once some accumulated line contains the parent id followed by a
comma, the scan never pushes another entry for that parent. -/
lemma routesScan_blocked :
    ∀ (rs : List GridRoute) (acc : List Str) (p : Str),
      (∃ l ∈ acc, containsSeq l (p ++ [',']) = true) →
      (routesScan rs acc).countP (fun e => decide (e.1 = p)) = 0 := by
  intro rs
  induction rs with
  | nil => intro acc p h; simp [routesScan]
  | cons r rest ih =>
    intro acc p h
    simp only [routesScan]
    split
    · exact ih acc p h
    · rename_i hany
      have hqp : parentRouteId r.id ≠ p := by
        intro he
        apply hany
        rw [List.any_eq_true]
        obtain ⟨l, hl, hc⟩ := h
        exact ⟨l, hl, he ▸ hc⟩
      rw [List.countP_cons]
      simp only [decide_eq_true_eq, hqp, if_false]
      have h' : ∃ l ∈ acc ++ [routeLine (parentRouteId r.id) r.name],
          containsSeq l (p ++ [',']) = true := by
        obtain ⟨l, hl, hc⟩ := h
        exact ⟨l, List.mem_append_left _ hl, hc⟩
      rw [ih _ p h']

set_option maxRecDepth 100000

/-- C1: the claim says the loop emits min(300, number of multiples of
F = 5 minutes from T = 05:30:00 strictly before 23:59:00) = 222 trips;
on the code the wrapping NaiveTime arithmetic steps over the one-minute
cutoff window [23:59:00, 24:00:00) and wraps past midnight, so
departure_time < 23:59:00 stays true and the loop only stops at the
300-trip safety cap. -/
theorem C1_trip_count_hits_cap :
    (gtfsTrips gridC1).length = 300 ∧
    Min.min 300 ((List.range 301).countP
      fun k => decide (19800 + 60 * 5 * k < serviceEndCutoff)) = 222 := by
  constructor
  · decide
  · decide

unseal Rat.add Rat.mul Rat.inv Rat.sub in
/-- C2: on the route Aa→Ba departing 23:58:00 the second stop-visit time
wraps to 00:00:00, which renders earlier than the first visit's
23:58:00 although its stop_sequence is larger: the cumulative clock
additions silently wrap at 24:00 and break ordering. -/
theorem C2_stop_times_wrap :
    gtfsStopTimes gridC2 =
      [⟨mkTripId (String.toList "R") 0 0, 86280, String.toList "Aa", 0⟩,
       ⟨mkTripId (String.toList "R") 0 0, 0, String.toList "Ba", 1⟩] ∧
    renderTime 86280 = String.toList "23:58:00" ∧
    renderTime 0 = String.toList "00:00:00" := by
  refine ⟨by decide, by decide, by decide⟩

/-- C6 fails as stated: the parser reads only the first two characters,
so the three-character string "Aab" is accepted rather than rejected. -/
theorem C6_counterexample :
    GridPosition.new (String.toList "Aab") = some ⟨'A', 'a'⟩ ∧
    (String.toList "Aab").length ≠ 2 := by
  decide

/-- C6 amended: parse fails on every input shorter than two characters
and on every input whose first two characters are not an uppercase
Latin letter followed by a lowercase Latin letter; characters beyond
the second are ignored, so longer strings with a valid two-character
prefix are accepted. -/
theorem C6_amended :
    (∀ l : Str, l.length < 2 → GridPosition.new l = none) ∧
    (∀ c0 c1 : Char, ∀ rest : Str,
      ¬('A' ≤ c0 ∧ c0 ≤ 'Z' ∧ 'a' ≤ c1 ∧ c1 ≤ 'z') →
      GridPosition.new (c0 :: c1 :: rest) = none) := by
  constructor
  · intro l hl
    match l with
    | [] => rfl
    | [c] => rfl
    | c0 :: c1 :: rest => simp at hl; omega
  · intro c0 c1 rest h
    simp only [GridPosition.new, if_neg h]

/-- Concrete instances of the amended C6 statement. -/
theorem C6_witness :
    GridPosition.new (String.toList "A") = none ∧
    GridPosition.new ('1' :: 'a' :: []) = none :=
  ⟨C6_amended.1 (String.toList "A") (by decide),
   C6_amended.2 '1' 'a' [] (by decide)⟩

/-- C7: every two-character uppercase-then-lowercase string parses, and
rendering the parsed position returns the original string. -/
theorem C7_parse_render_roundtrip (c0 c1 : Char)
    (h : 'A' ≤ c0 ∧ c0 ≤ 'Z' ∧ 'a' ≤ c1 ∧ c1 ≤ 'z') :
    (GridPosition.new [c0, c1]).map GridPosition.render = some [c0, c1] := by
  simp only [GridPosition.new, if_pos h, Option.map_some', GridPosition.render]

/-- Concrete instance of the C7 round trip at "Bc". -/
theorem C7_witness :
    (GridPosition.new ['B', 'c']).map GridPosition.render = some ['B', 'c'] :=
  C7_parse_render_roundtrip 'B' 'c' (by decide)

unseal Rat.add Rat.mul Rat.inv Rat.sub in
/-- C9 fails as stated: for stops one cell apart along a column with
spacing 1 km and base latitude 40, the travel-time model yields 2
minutes (exact arithmetic: ceil(min(1.0, 10.0)/30*60) = 2), not the 20
the claim asserts.  (The shipped f64 evaluation rounds the exact 2.0
marginally above 2 and lands on 3 — still not 20.) -/
theorem C9_counterexample :
    travelBetween gridAaBa (String.toList "Aa") (String.toList "Ba") ≠ 20 ∧
    travelBetween gridAaBa (String.toList "Aa") (String.toList "Ba") = 2 := by
  refine ⟨by decide, by decide⟩

lemma find?_range21_at_two {p : Nat → Bool} (h0 : p 0 = false)
    (h1 : p 1 = false) (h2 : p 2 = true) :
    ((List.range 21).find? p).getD 20 = 2 := by
  rw [show List.range 21 = 0 :: 1 :: 2 :: List.range' 3 18 from by decide,
    List.find?_cons_of_neg _ (by simp [h0]),
    List.find?_cons_of_neg _ (by simp [h1]),
    List.find?_cons_of_pos _ h2]
  rfl

lemma find?_range21_at_three {p : Nat → Bool} (h0 : p 0 = false)
    (h1 : p 1 = false) (h2 : p 2 = false) (h3 : p 3 = true) :
    ((List.range 21).find? p).getD 20 = 3 := by
  rw [show List.range 21 = 0 :: 1 :: 2 :: 3 :: List.range' 4 17 from by decide,
    List.find?_cons_of_neg _ (by simp [h0]),
    List.find?_cons_of_neg _ (by simp [h1]),
    List.find?_cons_of_neg _ (by simp [h2]),
    List.find?_cons_of_pos _ h3]
  rfl

/-- C9 amended: the travel duration for the one-cell column hop equals
2 minutes in exact arithmetic, and the result is robust to evaluation
round-off: any computed squared degree distance whose corresponding
squared kilometre distance lies within 1% of 1 yields 2 or 3 minutes
(the shipped f64 evaluation lands on 3), never the claimed 20. -/
theorem C9_amended (s : ℚ)
    (h : |s * ((2783 / 25) * (2783 / 25)) - 1| ≤ 1 / 100) :
    travelMinutes s = 2 ∨ travelMinutes s = 3 := by
  rw [abs_le] at h
  obtain ⟨hlo, hhi⟩ := h
  have hk1 : (99 : ℚ) / 100 ≤ s * ((2783 / 25) * (2783 / 25)) := by linarith
  have hk2 : s * ((2783 / 25) * (2783 / 25)) ≤ (101 : ℚ) / 100 := by linarith
  have h0 : (decide (4 * (s * ((2783 / 25) * (2783 / 25))) ≤ ((0 : Nat) : ℚ) * ((0 : Nat) : ℚ))) = false := by
    simp only [decide_eq_false_iff_not]
    push_cast
    intro hcon
    nlinarith
  have h1 : (decide (4 * (s * ((2783 / 25) * (2783 / 25))) ≤ ((1 : Nat) : ℚ) * ((1 : Nat) : ℚ))) = false := by
    simp only [decide_eq_false_iff_not]
    push_cast
    intro hcon
    nlinarith
  by_cases hc : 4 * (s * ((2783 / 25) * (2783 / 25))) ≤ (2 : ℚ) * 2
  · left
    unfold travelMinutes
    exact find?_range21_at_two h0 h1 (by push_cast; simpa using hc)
  · right
    unfold travelMinutes
    refine find?_range21_at_three h0 h1 ?_ ?_
    · simp only [decide_eq_false_iff_not]
      push_cast
      simpa using hc
    · simp only [decide_eq_true_eq]
      push_cast
      nlinarith

/-- The amended C9 statement instantiated at the exact squared distance
of the Aa→Ba hop, whose squared kilometre distance is exactly 1. -/
theorem C9_witness :
    |((25 : ℚ)/2783 * ((25 : ℚ)/2783)) * ((2783 / 25) * (2783 / 25)) - 1| ≤ 1 / 100 ∧
    (travelMinutes ((25 : ℚ)/2783 * ((25 : ℚ)/2783)) = 2 ∨
      travelMinutes ((25 : ℚ)/2783 * ((25 : ℚ)/2783)) = 3) :=
  ⟨by norm_num, C9_amended _ (by norm_num)⟩

/-- C3 fails as stated: with routes AB then B, the substring dedup check
finds "B," inside the already-emitted line "AB,n1,,3", so the distinct
parent route id B yields no data line at all. -/
theorem C3_counterexample :
    gridC3.routes.map (fun r => parentRouteId r.id) =
      [String.toList "AB", String.toList "B"] ∧
    routesTable gridC3 =
      [routesHeader, routeLine (String.toList "AB") (String.toList "n1")] ∧
    (routesScan gridC3.routes [routesHeader]).countP
      (fun e => decide (e.1 = String.toList "B")) = 0 := by
  decide

/-- C3 amended: each distinct parent route id yields at most one data
line of the routes table; it can yield none when the id followed by a
comma occurs as a substring of an earlier-emitted line (e.g. when the
id is a suffix of another route id). -/
theorem C3_amended (rs : List GridRoute) (acc : List Str) (p : Str) :
    (routesScan rs acc).countP (fun e => decide (e.1 = p)) ≤ 1 := by
  induction rs generalizing acc with
  | nil => simp [routesScan]
  | cons r rest ih =>
    simp only [routesScan]
    split
    · exact ih acc
    · rw [List.countP_cons]
      by_cases hqp : parentRouteId r.id = p
      · have hz := routesScan_blocked rest
          (acc ++ [routeLine (parentRouteId r.id) r.name]) p
          ⟨routeLine (parentRouteId r.id) r.name, by simp,
            by rw [hqp]; exact hqp ▸ routeLine_contains (parentRouteId r.id) r.name⟩
        rw [hz]
        simp [hqp]
      · simp only [decide_eq_true_eq, hqp, if_false]
        simpa using ih (acc ++ [routeLine (parentRouteId r.id) r.name])

/-- C4: a registerRoute call naming an unknown stop reports the error
and leaves the whole network, in particular its stop and route
collections, exactly as it was. -/
theorem C4_unknown_stop_atomic (g : TransitGrid) (id name : Str)
    (stops : List Str) (t : TimeOfDay) (freq : Int) (genRev : Bool)
    (h : ∃ s ∈ stops, lookupStop g.stops s = none) :
    (addRoute g id name stops t freq genRev).1 = g ∧
    (addRoute g id name stops t freq genRev).2.isSome = true := by
  have hfind : (stops.find? fun s => (lookupStop g.stops s).isNone).isSome = true := by
    rw [List.find?_isSome]
    obtain ⟨s, hs, hn⟩ := h
    exact ⟨s, hs, by simp [hn]⟩
  obtain ⟨s', hs'⟩ := Option.isSome_iff_exists.mp hfind
  unfold addRoute
  rw [hs']
  exact ⟨rfl, rfl⟩

/-- The C4 statement at a concrete network: the stop Bb is unknown, the
call fails, and the grid is untouched. -/
theorem C4_witness :
    (addRoute gridAaBa (String.toList "R2") (String.toList "n")
        [String.toList "Aa", String.toList "Bb"] 28800 5 false).1 = gridAaBa ∧
    (addRoute gridAaBa (String.toList "R2") (String.toList "n")
        [String.toList "Aa", String.toList "Bb"] 28800 5 false).2.isSome = true :=
  C4_unknown_stop_atomic gridAaBa (String.toList "R2") (String.toList "n")
    [String.toList "Aa", String.toList "Bb"] 28800 5 false (by decide)

/-- C5 fails as stated, in two ways.  (i) When the caller-supplied id
already ends in "_reverse" ("X_reverse"), the forward route's trips
carry direction id 1, not 0, because direction is inferred from the id
suffix.  (ii) With the negative frequency -3 the reverse departure
offset is the truncated quotient -1 (time 07:59:00), not the floor -2
(07:58:00) that the claim's floor(F/2) demands. -/
theorem C5_counterexample :
    gridC5X.2 = none ∧
    (gtfsTrips gridC5X.1).map (fun tr => tr.direction) = [1, 1] ∧
    gridC5Y.2 = none ∧
    gridC5Y.1.routes.map (fun r => r.schedule) = [[28800], [28740]] ∧
    (28740 : Nat) ≠ addMinutes 28800 (Int.fdiv (-3) 2) := by
  refine ⟨by decide, by decide, by decide, by decide, by decide⟩

/-- C5 amended: for a successful generateReverse registration whose id
does not already end in the reverse marker and whose frequency is
non-negative, the appended second route has exactly the reversed stop
sequence, first departure T + floor(F/2) minutes (on the wrapping
day clock), and id = original id + "_reverse"; its generated trips all
carry direction id 1 while the forward route's all carry 0. -/
theorem C5_amended (g : TransitGrid) (id name : Str) (stops : List Str)
    (T : TimeOfDay) (F : Int)
    (hv : ∀ s ∈ stops, (lookupStop g.stops s).isSome = true)
    (hid : revSuffix.isSuffixOf id = false)
    (hF : 0 ≤ F) :
    (addRoute g id name stops T F true).2 = none ∧
    (addRoute g id name stops T F true).1.routes =
      g.routes ++
        [⟨id, name, stops, [T], F⟩,
         ⟨id ++ revSuffix, name, stops.reverse, [addMinutes T (F.fdiv 2)], F⟩] ∧
    dirId (id ++ revSuffix) = 1 ∧
    dirId id = 0 ∧
    ((tripLoop (addRoute g id name stops T F true).1
        ⟨id ++ revSuffix, name, stops.reverse, [addMinutes T (F.fdiv 2)], F⟩
        300 (addMinutes T (F.fdiv 2)) 0).1.filter
      (fun tr => tr.direction != 1)) = [] ∧
    ((tripLoop (addRoute g id name stops T F true).1
        ⟨id, name, stops, [T], F⟩ 300 T 0).1.filter
      (fun tr => tr.direction != 0)) = [] := by
  have hfind : (stops.find? fun s => (lookupStop g.stops s).isNone) = none := by
    rw [List.find?_eq_none]
    intro s hs
    simpa using Option.isSome_iff_ne_none.mp (hv s hs)
  have hdiv : F.tdiv 2 = F.fdiv 2 := (Int.fdiv_eq_tdiv hF (by norm_num)).symm
  unfold addRoute
  rw [hfind]
  dsimp only
  rw [hdiv]
  refine ⟨rfl, by simp, dirId_append_rev id, dirId_of_not_rev hid, ?_, ?_⟩
  · have h := tripLoop_dir_filter
      ⟨g.stops, g.routes ++ [⟨id, name, stops, [T], F⟩] ++
        [⟨id ++ revSuffix, name, stops.reverse, [addMinutes T (F.fdiv 2)], F⟩],
        g.config⟩
      ⟨id ++ revSuffix, name, stops.reverse, [addMinutes T (F.fdiv 2)], F⟩
      300 (addMinutes T (F.fdiv 2)) 0
    simpa only [dirId_append_rev] using h
  · have h := tripLoop_dir_filter
      ⟨g.stops, g.routes ++ [⟨id, name, stops, [T], F⟩] ++
        [⟨id ++ revSuffix, name, stops.reverse, [addMinutes T (F.fdiv 2)], F⟩],
        g.config⟩
      ⟨id, name, stops, [T], F⟩ 300 T 0
    simpa only [dirId_of_not_rev hid] using h

/-- The amended C5 statement at a concrete registration: id X, no
stops, first departure 23:58:00, frequency 1. -/
theorem C5_witness :
    (addRoute emptyGrid (String.toList "X") (String.toList "n")
        [] 86280 1 true).2 = none ∧
    (addRoute emptyGrid (String.toList "X") (String.toList "n")
        [] 86280 1 true).1.routes =
      emptyGrid.routes ++
        [⟨String.toList "X", String.toList "n", [], [86280], 1⟩,
         ⟨String.toList "X" ++ revSuffix, String.toList "n",
          ([] : List Str).reverse, [addMinutes 86280 (Int.fdiv 1 2)], 1⟩] ∧
    dirId (String.toList "X" ++ revSuffix) = 1 ∧
    dirId (String.toList "X") = 0 ∧
    ((tripLoop (addRoute emptyGrid (String.toList "X") (String.toList "n")
          [] 86280 1 true).1
        ⟨String.toList "X" ++ revSuffix, String.toList "n",
         ([] : List Str).reverse, [addMinutes 86280 (Int.fdiv 1 2)], 1⟩
        300 (addMinutes 86280 (Int.fdiv 1 2)) 0).1.filter
      (fun tr => tr.direction != 1)) = [] ∧
    ((tripLoop (addRoute emptyGrid (String.toList "X") (String.toList "n")
          [] 86280 1 true).1
        ⟨String.toList "X", String.toList "n", [], [86280], 1⟩
        300 86280 0).1.filter
      (fun tr => tr.direction != 0)) = [] :=
  C5_amended emptyGrid (String.toList "X") (String.toList "n") [] 86280 1
    (by simp) (by decide) (by norm_num)

/-- C8 fails as stated: two successful registrations can reuse the same
route id, and the resulting feed then repeats the same trip_id (here
R_0_dir0 twice). -/
theorem C8_counterexample :
    (addRoute emptyGrid (String.toList "R") (String.toList "n")
      [] 86280 1 false).2 = none ∧
    gridC8dup.2 = none ∧
    ¬ ((gtfsTrips gridC8dup.1).map (fun tr => tr.tripId)).Nodup := by
  refine ⟨by decide, by decide, by decide⟩

/-- C8 amended: the emitted trip identifiers are pairwise distinct
provided each route's schedule is a single first departure (as
registerRoute creates) and no two routes share the same (parent id,
direction) pair — in particular when all registered route ids are
distinct and none equals another registered id + "_reverse". -/
theorem C8_amended (g : TransitGrid)
    (h1 : ∀ r ∈ g.routes, r.schedule.length = 1)
    (h2 : (g.routes.map fun r => (parentRouteId r.id, dirId r.id)).Nodup) :
    ((gtfsTrips g).map (fun tr => tr.tripId)).Nodup := by
  unfold gtfsTrips
  rw [List.map_flatMap, List.nodup_flatMap]
  constructor
  · intro r hr
    obtain ⟨t, ht⟩ := List.length_eq_one.mp (h1 r hr)
    rw [ht]
    simpa using tripLoop_nodup 300 t 0
  · have hp : g.routes.Pairwise fun r1 r2 =>
        (parentRouteId r1.id, dirId r1.id) ≠ (parentRouteId r2.id, dirId r2.id) := by
      rw [List.Nodup, List.pairwise_map] at h2
      exact h2
    refine hp.imp ?_
    intro r1 r2 hne x hx1 hx2
    simp only [Function.onFun] at hx1 hx2
    obtain ⟨tr1, htr1, hid1⟩ := List.mem_map.mp hx1
    obtain ⟨tr2, htr2, hid2⟩ := List.mem_map.mp hx2
    obtain ⟨t1, -, hin1⟩ := List.mem_flatMap.mp htr1
    obtain ⟨t2, -, hin2⟩ := List.mem_flatMap.mp htr2
    obtain ⟨i, -, he1⟩ := tripLoop_mem 300 t1 0 tr1 hin1
    obtain ⟨j, -, he2⟩ := tripLoop_mem 300 t2 0 tr2 hin2
    subst he1 he2
    simp only at hid1 hid2
    have hd1 : dirId r1.id < 10 :=
      lt_of_lt_of_le (dirId_lt_two r1.id) (by norm_num)
    have hd2 : dirId r2.id < 10 :=
      lt_of_lt_of_le (dirId_lt_two r2.id) (by norm_num)
    obtain ⟨hpp, -, hdd⟩ := mkTripId_inj hd1 hd2 (hid1.trans hid2.symm)
    exact hne (by rw [hpp, hdd])

/-- The amended C8 statement at the forward/reverse pair produced by one
generateReverse registration. -/
theorem C8_witness :
    ((gtfsTrips gridC8ok).map (fun tr => tr.tripId)).Nodup :=
  C8_amended gridC8ok (by decide) (by decide)

/-- C10: registerRoute never checks id uniqueness: a call whose id is
already carried by an existing route still succeeds and simply appends,
after which at least two routes bear the id, and the feed's trips table
is built by expanding every route in the list, duplicates included. -/
theorem C10_duplicate_id_accepted (g : TransitGrid) (id name : Str)
    (stops : List Str) (T : TimeOfDay) (F : Int)
    (h1 : ∃ r ∈ g.routes, r.id = id)
    (h2 : ∀ s ∈ stops, (lookupStop g.stops s).isSome = true) :
    (addRoute g id name stops T F false).2 = none ∧
    (addRoute g id name stops T F false).1.routes =
      g.routes ++ [⟨id, name, stops, [T], F⟩] ∧
    2 ≤ (addRoute g id name stops T F false).1.routes.countP
          (fun r => decide (r.id = id)) ∧
    gtfsTrips (addRoute g id name stops T F false).1 =
      ((addRoute g id name stops T F false).1.routes).flatMap
        (fun r => r.schedule.flatMap fun t =>
          (tripLoop (addRoute g id name stops T F false).1 r 300 t 0).1) := by
  have hfind : (stops.find? fun s => (lookupStop g.stops s).isNone) = none := by
    rw [List.find?_eq_none]
    intro s hs
    simpa using Option.isSome_iff_ne_none.mp (h2 s hs)
  unfold addRoute
  rw [hfind]
  simp only [Bool.false_eq_true, if_false]
  refine ⟨by trivial, by trivial, ?_, by rfl⟩
  rw [List.countP_append]
  have hold : 0 < g.routes.countP (fun r => decide (r.id = id)) := by
    rw [List.countP_pos_iff]
    obtain ⟨r, hr, he⟩ := h1
    exact ⟨r, hr, by simp [he]⟩
  have hnew : ([(⟨id, name, stops, [T], F⟩ : GridRoute)].countP
      (fun r => decide (r.id = id))) = 1 := by simp
  omega

/-- The C10 statement at a concrete network that already carries a
route R (gridC1), registering a second route with the same id. -/
theorem C10_witness :
    (addRoute gridC1 (String.toList "R") (String.toList "n2")
      [] 30000 7 false).2 = none ∧
    (addRoute gridC1 (String.toList "R") (String.toList "n2")
      [] 30000 7 false).1.routes =
      gridC1.routes ++ [⟨String.toList "R", String.toList "n2", [], [30000], 7⟩] ∧
    2 ≤ (addRoute gridC1 (String.toList "R") (String.toList "n2")
          [] 30000 7 false).1.routes.countP
          (fun r => decide (r.id = String.toList "R")) ∧
    gtfsTrips (addRoute gridC1 (String.toList "R") (String.toList "n2")
        [] 30000 7 false).1 =
      ((addRoute gridC1 (String.toList "R") (String.toList "n2")
          [] 30000 7 false).1.routes).flatMap
        (fun r => r.schedule.flatMap fun t =>
          (tripLoop (addRoute gridC1 (String.toList "R") (String.toList "n2")
            [] 30000 7 false).1 r 300 t 0).1) :=
  C10_duplicate_id_accepted gridC1 (String.toList "R") (String.toList "n2")
    [] 30000 7 (by decide) (by simp)
